import Mathlib

/-!
Verification of the direct-printing service (src/src/api.rs) against its
design specification.  The Rust source is embedded shallowly: pure data
types become Lean structures, the OS/driver boundary (printer enumeration,
capability fetching, ticket building, spool submission, filesystem) is
passed in explicitly as an environment of `Except`-returning oracles, and
each HTTP handler / helper function of `api.rs` becomes a Lean function of
the same name.
-/

namespace DirectPrinting

/-- The garbled substring produced by the defective vendor driver,
`"&#xEB;米"`, as a character list. -/
def garbled : List Char := ['&', '#', 'x', 'E', 'B', ';', '米']

/-- Replace every (non-overlapping, left-to-right) occurrence of the garbled
substring `&#xEB;米` by `毫米`, on character lists.  This is Rust's
`s.replace("&#xEB;米", "毫米")` specialised to the fixed pattern. -/
def replaceGarbled : List Char → List Char
  | [] => []
  | '&' :: '#' :: 'x' :: 'E' :: 'B' :: ';' :: '米' :: rest => '毫' :: '米' :: replaceGarbled rest
  | c :: rest => c :: replaceGarbled rest

/-- Display-name sanitation: `name.replace("&#xEB;米", "毫米")` from the source. -/
def sanitize (s : String) : String := String.mk (replaceGarbled s.data)

/-- A printer device as enumerated from the OS spooler; its identity is its
driver-assigned name (`PrinterDevice` of the `winprint` crate, of which the
source uses only `.name()`). -/
structure PrinterDevice where
  name : String
deriving DecidableEq, Repr

/-- `PredefinedPageOrientation` of the `winprint` crate. -/
inductive PredefinedPageOrientation where
  | portrait
  | landscape
  | reversePortrait
  | reverseLandscape
deriving DecidableEq, Repr

/-- The API-level orientation enum (`Orientation` in `api.rs`). -/
inductive Orientation where
  | portrait
  | landscape
  | reversePortrait
  | reverseLandscape
deriving DecidableEq, Repr

/-- `impl From<PredefinedPageOrientation> for Orientation`. -/
def orientationFromPredefined : PredefinedPageOrientation → Orientation
  | .portrait => .portrait
  | .landscape => .landscape
  | .reversePortrait => .reversePortrait
  | .reverseLandscape => .reverseLandscape

/-- `impl From<&Orientation> for PredefinedPageOrientation`. -/
def predefinedOfOrientation : Orientation → PredefinedPageOrientation
  | .portrait => .portrait
  | .landscape => .landscape
  | .reversePortrait => .reversePortrait
  | .reverseLandscape => .reverseLandscape

/-- One capability-native page-orientation feature option, as yielded by
`cap.page_orientations()`: its predefined identity when it has one
(`as_predefined_name()`), plus opaque driver-private data that the API never
inspects but that travels with the option when it is merged into a ticket. -/
structure PageOrientationOption where
  asPredefinedName : Option PredefinedPageOrientation
  privateData : Nat
deriving DecidableEq, Repr

/-- One capability-native page-media-size feature option, as yielded by
`cap.page_media_sizes()`: optional display name (`display_name()`), exact
size in micrometers (`size().width_in_micron()` / `height_in_micron()`),
plus opaque driver-private data. -/
structure PageMediaSizeOption where
  displayName : Option String
  widthMicron : Nat
  heightMicron : Nat
  privateData : Nat
deriving DecidableEq, Repr

/-- A fetched capability snapshot (`PrintCapabilities` of `winprint`),
restricted to the accessors the source uses. -/
structure PrintCapabilities where
  maxCopies : Option Nat
  pageOrientations : List PageOrientationOption
  pageMediaSizes : List PageMediaSizeOption
deriving DecidableEq, Repr

/-- API page size (`PageSize` in `api.rs`): optional name, width and height
in micrometers. -/
structure PageSize where
  name : Option String
  width : Nat
  height : Nat
deriving DecidableEq, Repr

/-- API capability response (`PrinterCapability` in `api.rs`). -/
structure PrinterCapability where
  max_copies : Option Nat
  orientations : Option (List Orientation)
  page_sizes : Option (List PageSize)
deriving DecidableEq, Repr

/-- API print settings (`PrintSettings` in `api.rs`). -/
structure PrintSettings where
  printer : String
  copies : Option Nat
  orientation : Option Orientation
  page_size : Option PageSize
deriving DecidableEq, Repr

/-- API print payload (`PrintPayload` in `api.rs`); the PDF body is a byte
list. -/
structure PrintPayload where
  file : List Nat
  settings : PrintSettings
deriving DecidableEq, Repr

/-- The uniform response envelope (`Response<T>` in `api.rs`). -/
structure Response (T : Type) where
  code : Int
  msg : Option String
  data : Option T
deriving DecidableEq, Repr

/-- `Response::ok`. -/
def Response.ok {T : Type} (data : T) : Response T :=
  { code := 0, msg := none, data := some data }

/-- `Response::err`. -/
def Response.err {T : Type} (msg : String) : Response T :=
  { code := 1, msg := some msg, data := none }

/-- `get_orientations` from `api.rs`: keep, in order, the predefined identity
of every orientation option that has one; report `none` instead of an empty
list. -/
def get_orientations (cap : PrintCapabilities) : Option (List Orientation) :=
  let oriens := cap.pageOrientations.filterMap
    (fun ori => ori.asPredefinedName.map orientationFromPredefined)
  if oriens.isEmpty then none else some oriens

/-- `get_page_sizes` from `api.rs`: expose every page-media size, sanitising
its display name; report `none` instead of an empty list. -/
def get_page_sizes (cap : PrintCapabilities) : Option (List PageSize) :=
  let sizes := cap.pageMediaSizes.map
    (fun pms =>
      { name := pms.displayName.map sanitize
        width := pms.widthMicron
        height := pms.heightMicron : PageSize })
  if sizes.isEmpty then none else some sizes

/-- `get_printers` handler: `PrinterDevice::all().unwrap_or_default()`, then
the raw device names.  The enumeration outcome is the explicit argument. -/
def get_printers (enum : Except String (List PrinterDevice)) : Response (List String) :=
  let printers := (enum.toOption).getD []
  Response.ok (printers.map (fun p => p.name))

/-- `get_printer` handler: resolve the device by raw name equality over
`PrinterDevice::all().unwrap_or_default()`; fetch its capabilities, a fetch
failure being mapped to an internal server error (`Except.error`, the
`map_err(InternalServerError)?` of the source) rather than an envelope. -/
def get_printer (enum : Except String (List PrinterDevice))
    (fetch : PrinterDevice → Except String PrintCapabilities)
    (name : String) : Except String (Response PrinterCapability) :=
  let printers := (enum.toOption).getD []
  match printers.find? (fun p => p.name == name) with
  | some printer =>
    match fetch printer with
    | .error e => .error e
    | .ok cap =>
      .ok (Response.ok
        { max_copies := cap.maxCopies
          orientations := get_orientations cap
          page_sizes := get_page_sizes cap })
  | none => .ok (Response.err "No such printer")

/-- One feature selection merged into the `PrintTicketBuilder`: the argument
of one `builder.merge(...)` call in `print_file`.  Orientation and page-size
selections carry the capability-native option object. -/
inductive TicketItem where
  | copies : Nat → TicketItem
  | orientation : PageOrientationOption → TicketItem
  | pageSize : PageMediaSizeOption → TicketItem
deriving DecidableEq, Repr

/-- Observable external actions performed by `print_file`, in order: a
capability fetch for a device, a `builder.merge`, the temporary-file write,
`builder.build()`, and the submission to the OS print pipeline. -/
inductive Ev where
  | fetchedCap : String → Ev
  | merged : TicketItem → Ev
  | wroteTemp : Ev
  | built : Ev
  | submitted : String → Ev
deriving DecidableEq, Repr

/-- The OS / driver / filesystem boundary used by `print_file`, modelled as
explicit fallible oracles: printer enumeration (`PrinterDevice::all`),
capability fetching (`PrintCapabilities::fetch`), builder creation
(`PrintTicketBuilder::new`), option merging (`builder.merge`), the
temporary-file write, ticket building (`builder.build`), and submission
(`PdfiumPrinter::print`). -/
structure PrintEnv where
  enum : Except String (List PrinterDevice)
  fetch : PrinterDevice → Except String PrintCapabilities
  newBuilder : PrinterDevice → Except String Unit
  mergeResult : TicketItem → Except String Unit
  writeTemp : List Nat → Except String Unit
  buildTicket : List TicketItem → Except String Nat
  printResult : PrinterDevice → Nat → Except String Unit

/-- The `// 份数` block of `print_file`: if `copies` is present merge it
(unconditionally — no comparison with the capability's maximum), returning
the list of items newly merged. -/
def copiesStep (env : PrintEnv) (copies : Option Nat) : Except String (List TicketItem) :=
  match copies with
  | none => .ok []
  | some n =>
    match env.mergeResult (.copies n) with
    | .ok _ => .ok [TicketItem.copies n]
    | .error e => .error e

/-- The `// 布局` block of `print_file`: find the capability orientation
option whose predefined identity equals the requested one and merge that
option, else fail with `No such orientation`. -/
def orientationStep (env : PrintEnv) (cap : PrintCapabilities)
    (orientation : Option Orientation) : Except String (List TicketItem) :=
  match orientation with
  | none => .ok []
  | some ori =>
    let predefined := some (predefinedOfOrientation ori)
    match cap.pageOrientations.find? (fun x => x.asPredefinedName == predefined) with
    | some o =>
      match env.mergeResult (.orientation o) with
      | .ok _ => .ok [TicketItem.orientation o]
      | .error e => .error e
    | none => .error "No such orientation"

/-- The `// 纸张大小` block of `print_file`: when a display name is supplied
match on raw display-name equality only, otherwise on exact
(width, height) equality; merge the found capability-native option, else
fail with `No such page size`. -/
def pageSizeStep (env : PrintEnv) (cap : PrintCapabilities)
    (page_size : Option PageSize) : Except String (List TicketItem) :=
  match page_size with
  | none => .ok []
  | some ps =>
    let page :=
      match ps.name with
      | some name => cap.pageMediaSizes.find? (fun x => x.displayName == some name)
      | none =>
        cap.pageMediaSizes.find?
          (fun x => x.widthMicron == ps.width && x.heightMicron == ps.height)
    match page with
    | some p =>
      match env.mergeResult (.pageSize p) with
      | .ok _ => .ok [TicketItem.pageSize p]
      | .error e => .error e
    | none => .error "No such page size"

/-- The tail of `print_file` after the settings blocks: write the temporary
file, build the ticket, submit it. -/
def finishSteps (env : PrintEnv) (printer : PrinterDevice) (items : List TicketItem)
    (evs : List Ev) (file : List Nat) : Except String Unit × List Ev :=
  match env.writeTemp file with
  | .error e => (.error e, evs)
  | .ok _ =>
    let evs := evs ++ [Ev.wroteTemp]
    match env.buildTicket items with
    | .error e => (.error e, evs)
    | .ok ticket =>
      let evs := evs ++ [Ev.built]
      match env.printResult printer ticket with
      | .error e => (.error e, evs)
      | .ok _ => (.ok (), evs ++ [Ev.submitted printer.name])

/-- Everything `print_file` does after the device is resolved and its
capabilities fetched: builder creation, the three settings blocks, then the
dispatch tail. -/
def negotiateRest (env : PrintEnv) (payload : PrintPayload) (printer : PrinterDevice)
    (cap : PrintCapabilities) : Except String Unit × List Ev :=
  let ev0 : List Ev := [Ev.fetchedCap printer.name]
  match env.newBuilder printer with
  | .error e => (.error e, ev0)
  | .ok _ =>
    match copiesStep env payload.settings.copies with
    | .error e => (.error e, ev0)
    | .ok itemsC =>
      match orientationStep env cap payload.settings.orientation with
      | .error e => (.error e, ev0 ++ itemsC.map Ev.merged)
      | .ok itemsO =>
        match pageSizeStep env cap payload.settings.page_size with
        | .error e => (.error e, ev0 ++ (itemsC ++ itemsO).map Ev.merged)
        | .ok itemsP =>
          finishSteps env printer (itemsC ++ itemsO ++ itemsP)
            (ev0 ++ (itemsC ++ itemsO ++ itemsP).map Ev.merged) payload.file

/-- `print_file` from `api.rs`: enumeration (`?`, so a failure propagates),
device resolution comparing the sanitised device name against the raw
requested name, capability fetch, then `negotiateRest`.  Besides the
result, the trace of external actions is returned. -/
def print_file (env : PrintEnv) (payload : PrintPayload) : Except String Unit × List Ev :=
  match env.enum with
  | .error e => (.error e, [])
  | .ok printers =>
    match printers.find? (fun p => sanitize p.name == payload.settings.printer) with
    | none => (.error "No such printer", [])
    | some printer =>
      match env.fetch printer with
      | .error e => (.error e, [Ev.fetchedCap printer.name])
      | .ok cap => negotiateRest env payload printer cap

/-- The `print` handler: any `print_file` error becomes the uniform
`{code:1, msg:"Failed to print: …"}` envelope, success becomes
`{code:0, data:"ok"}`. -/
def print (env : PrintEnv) (payload : PrintPayload) : Response String :=
  match (print_file env payload).1 with
  | .error e => Response.err ("Failed to print: " ++ e)
  | .ok _ => Response.ok "ok"

/-- `get_settings_filepath`: the per-user config directory (when the OS
yields one) with `default.json` appended. -/
def get_settings_filepath (configDir : Option String) : Option String :=
  configDir.map (fun dir => dir ++ "/default.json")

/-- `read_settings`: read the file (a read failure — e.g. an absent file —
propagates), then parse it, a parse failure being wrapped with a
diagnostic message. -/
def read_settings (readFile : String → Except String String)
    (parse : String → Except String PrintSettings)
    (filepath : String) : Except String PrintSettings :=
  match readFile filepath with
  | .error e => .error e
  | .ok json =>
    match parse json with
    | .ok settings => .ok settings
    | .error e => .error ("Failed to parse settings file: " ++ e)

/-- The `get_default_settings` handler: any failure to locate, read or parse
the settings file collapses to the one envelope `No default settings`. -/
def get_default_settings (configDir : Option String)
    (readFile : String → Except String String)
    (parse : String → Except String PrintSettings) : Response PrintSettings :=
  match get_settings_filepath configDir with
  | some filepath =>
    match read_settings readFile parse filepath with
    | .ok settings => Response.ok settings
    | .error _ => Response.err "No default settings"
  | none => Response.err "No default settings"

/-! Concrete fixtures: an environment whose external oracles all succeed,
a few capability snapshots, and request payloads used to exercise the
handlers on concrete inputs. -/

/-- An environment with the given enumeration result and capability fetcher,
in which builder creation, merging, the temp-file write, ticket building and
submission all succeed. -/
def baseEnv (enum : Except String (List PrinterDevice))
    (fetch : PrinterDevice → Except String PrintCapabilities) : PrintEnv :=
  { enum := enum
    fetch := fetch
    newBuilder := fun _ => .ok ()
    mergeResult := fun _ => .ok ()
    writeTemp := fun _ => .ok ()
    buildTicket := fun _ => .ok 0
    printResult := fun _ _ => .ok () }

/-- A capability snapshot as the defective Gprinter GP-1134T driver reports
it: one page-media size whose display name carries the garbled `&#xEB;米`
substring. -/
def capGarbled : PrintCapabilities :=
  { maxCopies := some 99
    pageOrientations := [{ asPredefinedName := some .portrait, privateData := 0 }]
    pageMediaSizes :=
      [{ displayName := some "20&#xEB;米 x 30&#xEB;米"
         widthMicron := 200000
         heightMicron := 300000
         privateData := 7 }] }

/-- Environment exposing the garbled printer. -/
def envGarbled : PrintEnv := baseEnv (.ok [{ name := "Gprinter GP-1134T" }]) (fun _ => .ok capGarbled)

/-- A request asking the garbled printer for exactly the page size that
`get_page_sizes` reports for it (the sanitised display name). -/
def payloadGarbled : PrintPayload :=
  { file := []
    settings :=
      { printer := "Gprinter GP-1134T"
        copies := none
        orientation := none
        page_size := some { name := some "20毫米 x 30毫米", width := 200000, height := 300000 } } }

/-- A plain capability snapshot: portrait and landscape, one A4 page size. -/
def capPlain : PrintCapabilities :=
  { maxCopies := some 9
    pageOrientations :=
      [{ asPredefinedName := some .portrait, privateData := 1 }
       , { asPredefinedName := some .landscape, privateData := 2 }]
    pageMediaSizes :=
      [{ displayName := some "A4", widthMicron := 210000, heightMicron := 297000, privateData := 3 }] }

/-- Environment with one device whose name carries the garbled substring. -/
def envGarbledName : PrintEnv := baseEnv (.ok [{ name := "A&#xEB;米" }]) (fun _ => .ok capPlain)

/-- A request naming that device verbatim (the very string the OS reports,
which is also what both-sides sanitation would accept). -/
def payloadGarbledName : PrintPayload :=
  { file := []
    settings := { printer := "A&#xEB;米", copies := none, orientation := none, page_size := none } }

/-- A fetcher that always reports a plain capability snapshot. -/
def fetchPlain : PrinterDevice → Except String PrintCapabilities := fun _ => .ok capPlain

/-- A fetcher that always fails at the driver boundary. -/
def fetchBoom : PrinterDevice → Except String PrintCapabilities := fun _ => .error "driver query failed"

/-- A request for a printer named `HP LaserJet` with no optional settings. -/
def payloadPlain : PrintPayload :=
  { file := []
    settings := { printer := "HP LaserJet", copies := none, orientation := none, page_size := none } }

/-- Environment with the plain `HP LaserJet` device. -/
def envPlain : PrintEnv := baseEnv (.ok [{ name := "HP LaserJet" }]) fetchPlain

/-- A request for `HP LaserJet` asking for two copies and landscape. -/
def payloadFull : PrintPayload :=
  { file := [1, 2]
    settings :=
      { printer := "HP LaserJet"
        copies := some 2
        orientation := some .landscape
        page_size := some { name := some "A4", width := 210000, height := 297000 } } }

/-- A request for `HP LaserJet` asking for twenty copies (more than the
reported maximum of nine), landscape and A4. -/
def payloadOver : PrintPayload :=
  { file := [1, 2]
    settings :=
      { printer := "HP LaserJet"
        copies := some 20
        orientation := some .landscape
        page_size := some { name := some "A4", width := 210000, height := 297000 } } }

/-- A request for `HP LaserJet` asking for reverse portrait, which the
device does not report. -/
def payloadRevPortrait : PrintPayload :=
  { file := []
    settings :=
      { printer := "HP LaserJet"
        copies := none
        orientation := some .reversePortrait
        page_size := none } }

/-- A file reader for which every path is absent. -/
def readFileAbsent : String → Except String String := fun _ => .error "file not found"

/-- A file reader that yields garbage content for every path. -/
def readFileGarbage : String → Except String String := fun _ => .ok "not json"

/-- A settings parser that fails on every input. -/
def parseFail : String → Except String PrintSettings := fun _ => .error "expected object"

/-! Helper lemmas about the negotiation pipeline. -/

/-- Whatever the dispatch tail does, events already in the trace stay in the
trace. -/
theorem mem_finishSteps_trace (env : PrintEnv) (printer : PrinterDevice)
    (items : List TicketItem) (evs : List Ev) (file : List Nat) (a : Ev)
    (h : a ∈ evs) : a ∈ (finishSteps env printer items evs file).2 := by
  unfold finishSteps
  split
  · simpa using h
  · split
    · simp [List.mem_append, h]
    · split
      · simp [List.mem_append, h]
      · simp [List.mem_append, h]

/-- Once the device is resolved and its capabilities fetched, `print_file`
is the negotiation tail. -/
theorem print_file_resolved (env : PrintEnv) (payload : PrintPayload)
    (printers : List PrinterDevice) (printer : PrinterDevice) (cap : PrintCapabilities)
    (henum : env.enum = .ok printers)
    (hfind : printers.find? (fun p => sanitize p.name == payload.settings.printer) = some printer)
    (hfetch : env.fetch printer = .ok cap) :
    print_file env payload = negotiateRest env payload printer cap := by
  simp [print_file, henum, hfind, hfetch]

/-- The copies block merges an accepted copy count. -/
theorem copiesStep_merge_ok (env : PrintEnv) (n : Nat)
    (h : env.mergeResult (TicketItem.copies n) = .ok ()) :
    copiesStep env (some n) = .ok [TicketItem.copies n] := by
  simp [copiesStep, h]

/-- The copies block only ever merges copy-count items. -/
theorem copiesStep_shape (env : PrintEnv) (c : Option Nat) (l : List TicketItem)
    (h : copiesStep env c = .ok l) :
    ∀ it ∈ l, ∃ n, it = TicketItem.copies n := by
  cases c with
  | none =>
    simp [copiesStep] at h
    subst h
    simp
  | some n =>
    cases hm : env.mergeResult (TicketItem.copies n) with
    | ok u =>
      simp [copiesStep, hm] at h
      subst h
      simp
    | error e =>
      simp [copiesStep, hm] at h

/-- The orientation block merges the found capability-native option. -/
theorem orientationStep_found (env : PrintEnv) (cap : PrintCapabilities) (ori : Orientation)
    (o : PageOrientationOption)
    (hfind : cap.pageOrientations.find?
      (fun x => x.asPredefinedName == some (predefinedOfOrientation ori)) = some o)
    (hm : env.mergeResult (TicketItem.orientation o) = .ok ()) :
    orientationStep env cap (some ori) = .ok [TicketItem.orientation o] := by
  simp [orientationStep, hfind, hm]

/-- The orientation block fails when no option carries the requested
predefined identity. -/
theorem orientationStep_absent (env : PrintEnv) (cap : PrintCapabilities) (ori : Orientation)
    (hfind : cap.pageOrientations.find?
      (fun x => x.asPredefinedName == some (predefinedOfOrientation ori)) = none) :
    orientationStep env cap (some ori) = .error "No such orientation" := by
  simp [orientationStep, hfind]

/-- `get_orientations` never reports an empty list. -/
theorem get_orientations_ne_some_nil (cap : PrintCapabilities) :
    get_orientations cap ≠ some [] := by
  unfold get_orientations
  dsimp only
  split
  · simp
  · next h => simp_all [List.isEmpty_iff]

/-- `get_page_sizes` never reports an empty list. -/
theorem get_page_sizes_ne_some_nil (cap : PrintCapabilities) :
    get_page_sizes cap ≠ some [] := by
  unfold get_page_sizes
  dsimp only
  split
  · simp
  · next h => simp_all [List.isEmpty_iff]

/-- The negotiation tail never reads the snapshot's maximum copy count. -/
theorem negotiateRest_maxCopies_irrel (env : PrintEnv) (payload : PrintPayload)
    (printer : PrinterDevice) (cap : PrintCapabilities) (x : Option Nat) :
    negotiateRest env payload printer { cap with maxCopies := x }
      = negotiateRest env payload printer cap := rfl

/-! The claims. -/

/-- C1: the report → request → accept round-trip fails on the documented
failing input.  The Gprinter GP-1134T device reports a page size with the
garbled display name; `get_page_sizes` exposes the sanitised name, but
requesting exactly that reported page size back through the Negotiator is
refused with `No such page size`, because the page-size name matching in
`print_file` compares the raw driver name without sanitation. -/
theorem c1_garbled_page_size_roundtrip_fails :
    get_page_sizes capGarbled
      = some [{ name := some "20毫米 x 30毫米", width := 200000, height := 300000 }] ∧
    payloadGarbled.settings.page_size
      = some { name := some "20毫米 x 30毫米", width := 200000, height := 300000 } ∧
    (print_file envGarbled payloadGarbled).1 = Except.error "No such page size" := by
  refine ⟨rfl, rfl, rfl⟩

/-- C2 counterexample: a device whose name carries the garbled substring is
listed verbatim by `get_printers`, although its sanitised form differs — so
the listing applies no sanitation. -/
theorem c2_listing_not_sanitized_cx :
    get_printers (.ok [{ name := "P&#xEB;米" }]) = Response.ok ["P&#xEB;米"] ∧
    sanitize "P&#xEB;米" ≠ "P&#xEB;米" := by
  exact ⟨rfl, by decide⟩

/-- C2 (amended): `get_printers` returns the enumerated device names exactly
as the OS reports them, with no sanitation applied. -/
theorem c2_listing_returns_raw_names (printers : List PrinterDevice) :
    get_printers (.ok printers) = Response.ok (printers.map PrinterDevice.name) := rfl

/-- C3 counterexample: the requested printer string is verbatim the listed
device's name (hence the two sides are also equal after sanitising both),
yet resolution fails with `No such printer`, because the source sanitises
only the device side of the comparison. -/
theorem c3_sanitation_one_sided_cx :
    payloadGarbledName.settings.printer = "A&#xEB;米" ∧
    envGarbledName.enum = .ok [{ name := "A&#xEB;米" }] ∧
    (sanitize "A&#xEB;米" == sanitize "A&#xEB;米") = true ∧
    print_file envGarbledName payloadGarbledName = (Except.error "No such printer", []) := by
  refine ⟨rfl, rfl, by decide, rfl⟩

/-- C3 (amended): the Negotiator resolves `settings.printer` by comparing the
sanitised device name against the raw client-supplied string (sanitation on
the device side only); when no device matches, it fails with
`No such printer` and the trace is empty — no capability fetch, no merge, no
ticket build, no submission. -/
theorem c3_no_such_printer_before_fetch (env : PrintEnv) (payload : PrintPayload)
    (printers : List PrinterDevice)
    (henum : env.enum = .ok printers)
    (hfind : printers.find? (fun p => sanitize p.name == payload.settings.printer) = none) :
    print_file env payload = (Except.error "No such printer", []) := by
  simp [print_file, henum, hfind]

/-- C3 witness: requesting the printer `Nonexistent`. -/
theorem c3_no_such_printer_before_fetch_witness :
    print_file envPlain
      { file := []
        settings :=
          { printer := "Nonexistent", copies := none, orientation := none, page_size := none } }
      = (Except.error "No such printer", []) :=
  c3_no_such_printer_before_fetch envPlain _ [{ name := "HP LaserJet" }] rfl (by decide)

/-- C4 counterexample: when enumeration fails the print path propagates the
enumeration error instead of behaving as if the device list were empty (an
empty list yields `No such printer`); the two outcomes differ. -/
theorem c4_print_path_propagates_enum_error_cx :
    (print_file (baseEnv (.error "enumeration failed") fetchPlain) payloadPlain).1
      = Except.error "enumeration failed" ∧
    (print_file (baseEnv (.ok []) fetchPlain) payloadPlain).1
      = Except.error "No such printer" ∧
    ("enumeration failed" : String) ≠ "No such printer" := by
  refine ⟨rfl, rfl, by decide⟩

/-- C4 (amended): an OS enumeration failure is treated as an empty device
list in `get_printers` (code 0, empty list) and in `get_printer`
(`No such printer`), but in the print path `print_file` propagates the
enumeration error itself. -/
theorem c4_enum_failure_empty_in_listing_only (e : String)
    (fetch : PrinterDevice → Except String PrintCapabilities) (nm : String)
    (env : PrintEnv) (payload : PrintPayload)
    (henum : env.enum = .error e) :
    get_printers (.error e) = Response.ok [] ∧
    get_printer (.error e) fetch nm = .ok (Response.err "No such printer") ∧
    print_file env payload = (Except.error e, []) := by
  refine ⟨rfl, rfl, ?_⟩
  simp [print_file, henum]

/-- C4 witness: a concrete failed enumeration. -/
theorem c4_enum_failure_empty_in_listing_only_witness :
    get_printers (.error "spooler down") = Response.ok [] ∧
    get_printer (.error "spooler down") fetchPlain "HP LaserJet"
      = .ok (Response.err "No such printer") ∧
    print_file (baseEnv (.error "spooler down") fetchPlain) payloadPlain
      = (Except.error "spooler down", []) :=
  c4_enum_failure_empty_in_listing_only "spooler down" fetchPlain "HP LaserJet"
    (baseEnv (.error "spooler down") fetchPlain) payloadPlain rfl

/-- C5 (confirmed): the Negotiator merges a requested copy count without any
comparison against the capability-reported maximum.  (i) After the fetch the
whole negotiation is insensitive to the snapshot's `maxCopies` field;
(ii) whenever the pipeline reaches the copies block with `copies = some n`
and the driver accepts the merge, the copy count is merged into the builder,
with no hypothesis whatsoever relating `n` to `cap.maxCopies`. -/
theorem c5_copies_not_validated :
    (∀ (env : PrintEnv) (payload : PrintPayload) (printers : List PrinterDevice)
       (printer : PrinterDevice) (cap : PrintCapabilities) (x : Option Nat),
      env.enum = .ok printers →
      printers.find? (fun p => sanitize p.name == payload.settings.printer) = some printer →
      env.fetch printer = .ok cap →
      print_file env payload = negotiateRest env payload printer { cap with maxCopies := x }) ∧
    (∀ (env : PrintEnv) (payload : PrintPayload) (printers : List PrinterDevice)
       (printer : PrinterDevice) (cap : PrintCapabilities) (n : Nat),
      env.enum = .ok printers →
      printers.find? (fun p => sanitize p.name == payload.settings.printer) = some printer →
      env.fetch printer = .ok cap →
      env.newBuilder printer = .ok () →
      env.mergeResult (TicketItem.copies n) = .ok () →
      payload.settings.copies = some n →
      Ev.merged (TicketItem.copies n) ∈ (print_file env payload).2) := by
  constructor
  · intro env payload printers printer cap x henum hfind hfetch
    rw [print_file_resolved env payload printers printer cap henum hfind hfetch]
    exact (negotiateRest_maxCopies_irrel env payload printer cap x).symm
  · intro env payload printers printer cap n henum hfind hfetch hnb hm hcopies
    rw [print_file_resolved env payload printers printer cap henum hfind hfetch]
    have hc : copiesStep env payload.settings.copies = .ok [TicketItem.copies n] := by
      rw [hcopies]
      exact copiesStep_merge_ok env n hm
    simp only [negotiateRest, hnb, hc]
    cases ho : orientationStep env cap payload.settings.orientation with
    | error e => simp
    | ok itemsO =>
      cases hp : pageSizeStep env cap payload.settings.page_size with
      | error e => simp
      | ok itemsP =>
        apply mem_finishSteps_trace
        simp

/-- C5 witness: the device reports a maximum of 9 copies, 20 copies are
merged anyway, and the negotiation is insensitive to the reported
maximum. -/
theorem c5_copies_not_validated_witness :
    capPlain.maxCopies = some 9 ∧
    print_file envPlain payloadOver
      = negotiateRest envPlain payloadOver { name := "HP LaserJet" }
          { capPlain with maxCopies := some 1 } ∧
    Ev.merged (TicketItem.copies 20) ∈ (print_file envPlain payloadOver).2 :=
  ⟨rfl,
   c5_copies_not_validated.1 envPlain payloadOver [{ name := "HP LaserJet" }]
     { name := "HP LaserJet" } capPlain (some 1) rfl rfl rfl,
   c5_copies_not_validated.2 envPlain payloadOver [{ name := "HP LaserJet" }]
     { name := "HP LaserJet" } capPlain 20 rfl rfl rfl rfl rfl rfl⟩

/-- C6 (confirmed): with the device resolved, its capabilities fetched and
the driver accepting merges, a requested orientation either matches a
capability-native option with the requested predefined identity — and that
very option object is merged into the builder — or no option matches and the
result is `No such orientation` with nothing built, nothing submitted, and
no orientation ever merged. -/
theorem c6_orientation_native_or_error
    (env : PrintEnv) (payload : PrintPayload) (printers : List PrinterDevice)
    (printer : PrinterDevice) (cap : PrintCapabilities) (ori : Orientation)
    (henum : env.enum = .ok printers)
    (hfind : printers.find? (fun p => sanitize p.name == payload.settings.printer) = some printer)
    (hfetch : env.fetch printer = .ok cap)
    (hnb : env.newBuilder printer = .ok ())
    (hmergeAll : ∀ it, env.mergeResult it = .ok ())
    (hori : payload.settings.orientation = some ori) :
    (∀ o, cap.pageOrientations.find?
        (fun x => x.asPredefinedName == some (predefinedOfOrientation ori)) = some o →
      o ∈ cap.pageOrientations ∧
      o.asPredefinedName = some (predefinedOfOrientation ori) ∧
      Ev.merged (TicketItem.orientation o) ∈ (print_file env payload).2) ∧
    (cap.pageOrientations.find?
        (fun x => x.asPredefinedName == some (predefinedOfOrientation ori)) = none →
      (print_file env payload).1 = Except.error "No such orientation" ∧
      Ev.built ∉ (print_file env payload).2 ∧
      (∀ nm, Ev.submitted nm ∉ (print_file env payload).2) ∧
      (∀ o, Ev.merged (TicketItem.orientation o) ∉ (print_file env payload).2)) := by
  have hc : ∃ l, copiesStep env payload.settings.copies = .ok l := by
    cases payload.settings.copies with
    | none => exact ⟨[], rfl⟩
    | some n => exact ⟨[TicketItem.copies n], copiesStep_merge_ok env n (hmergeAll _)⟩
  obtain ⟨itemsC, hc⟩ := hc
  have hcshape := copiesStep_shape env _ itemsC hc
  constructor
  · intro o hfo
    have hmem := List.mem_of_find?_eq_some hfo
    have hpred := List.find?_some hfo
    simp only [beq_iff_eq] at hpred
    refine ⟨hmem, hpred, ?_⟩
    rw [print_file_resolved env payload printers printer cap henum hfind hfetch]
    have hoStep := orientationStep_found env cap ori o hfo (hmergeAll _)
    rw [← hori] at hoStep
    simp only [negotiateRest, hnb, hc, hoStep]
    cases hp : pageSizeStep env cap payload.settings.page_size with
    | error e => simp
    | ok itemsP =>
      apply mem_finishSteps_trace
      simp
  · intro hnone
    rw [print_file_resolved env payload printers printer cap henum hfind hfetch]
    have hoStep := orientationStep_absent env cap ori hnone
    rw [← hori] at hoStep
    simp only [negotiateRest, hnb, hc, hoStep]
    refine ⟨by trivial, ?_, ?_, ?_⟩
    · simp [List.mem_append, List.mem_map]
    · intro nm
      simp [List.mem_append, List.mem_map]
    · intro o
      simp only [List.mem_append, List.mem_cons, List.mem_map, List.not_mem_nil]
      intro hcontra
      rcases hcontra with h | ⟨it, hit, heq⟩
      · simp at h
      · obtain ⟨n, rfl⟩ := hcshape it hit
        simp at heq

/-- C6 witness: landscape is reported and its capability-native option is
merged; reverse portrait is not reported and yields `No such orientation`. -/
theorem c6_orientation_native_or_error_witness :
    Ev.merged (TicketItem.orientation { asPredefinedName := some .landscape, privateData := 2 })
      ∈ (print_file envPlain payloadFull).2 ∧
    (print_file envPlain payloadRevPortrait).1 = Except.error "No such orientation" :=
  ⟨((c6_orientation_native_or_error envPlain payloadFull [{ name := "HP LaserJet" }]
      { name := "HP LaserJet" } capPlain .landscape rfl rfl rfl rfl (fun _ => rfl) rfl).1
      { asPredefinedName := some .landscape, privateData := 2 } rfl).2.2,
   ((c6_orientation_native_or_error envPlain payloadRevPortrait [{ name := "HP LaserJet" }]
      { name := "HP LaserJet" } capPlain .reversePortrait rfl rfl rfl rfl (fun _ => rfl) rfl).2
      rfl).1⟩

/-- C7 (confirmed): when a display name is supplied, page-size matching is by
exact display-name equality only — the requested dimensions are entirely
ignored, so there is no fallback to dimension matching; when no name is
supplied, matching is by exact (width, height) equality only; in either
case absence of a match yields `No such page size`. -/
theorem c7_page_size_matching :
    (∀ (env : PrintEnv) (cap : PrintCapabilities) (nm : String) (w1 h1 w2 h2 : Nat),
      pageSizeStep env cap (some { name := some nm, width := w1, height := h1 })
        = pageSizeStep env cap (some { name := some nm, width := w2, height := h2 })) ∧
    (∀ (env : PrintEnv) (cap : PrintCapabilities) (ps : PageSize) (nm : String),
      ps.name = some nm →
      cap.pageMediaSizes.find? (fun x => x.displayName == some nm) = none →
      pageSizeStep env cap (some ps) = Except.error "No such page size") ∧
    (∀ (env : PrintEnv) (cap : PrintCapabilities) (ps : PageSize),
      ps.name = none →
      (∀ x ∈ cap.pageMediaSizes, ¬(x.widthMicron = ps.width ∧ x.heightMicron = ps.height)) →
      pageSizeStep env cap (some ps) = Except.error "No such page size") := by
  refine ⟨?_, ?_, ?_⟩
  · intro env cap nm w1 h1 w2 h2
    rfl
  · intro env cap ps nm hname hfind
    simp [pageSizeStep, hname, hfind]
  · intro env cap ps hname hnomatch
    have hfind : cap.pageMediaSizes.find?
        (fun x => x.widthMicron == ps.width && x.heightMicron == ps.height) = none := by
      rw [List.find?_eq_none]
      intro x hx
      simp only [Bool.and_eq_true, beq_iff_eq]
      intro hcontra
      exact hnomatch x hx hcontra
    simp [pageSizeStep, hname, hfind]

/-- C7 witness: `Letter` with A4's exact dimensions still fails by name; a
size off by one micrometer in either dimension fails by dimensions. -/
theorem c7_page_size_matching_witness :
    pageSizeStep envPlain capPlain
      (some { name := some "Letter", width := 210000, height := 297000 })
      = Except.error "No such page size" ∧
    pageSizeStep envPlain capPlain
      (some { name := none, width := 210001, height := 297000 })
      = Except.error "No such page size" ∧
    pageSizeStep envPlain capPlain
      (some { name := none, width := 210000, height := 297001 })
      = Except.error "No such page size" :=
  ⟨c7_page_size_matching.2.1 envPlain capPlain _ "Letter" rfl (by decide),
   c7_page_size_matching.2.2 envPlain capPlain _ rfl (by decide),
   c7_page_size_matching.2.2 envPlain capPlain _ rfl (by decide)⟩

/-- C8 (confirmed): an absent settings file and a present-but-unparsable one
produce the same `No default settings` envelope — the two failure causes are
not distinguishable to the caller of `get_default_settings`. -/
theorem c8_settings_failures_indistinguishable (configDir : Option String) (fp : String)
    (readA readB : String → Except String String)
    (parseA parseB : String → Except String PrintSettings)
    (json eA eB : String)
    (hfp : get_settings_filepath configDir = some fp)
    (hA : readA fp = .error eA)
    (hB : readB fp = .ok json)
    (hPB : parseB json = .error eB) :
    get_default_settings configDir readA parseA = Response.err "No default settings" ∧
    get_default_settings configDir readB parseB = Response.err "No default settings" ∧
    get_default_settings configDir readA parseA
      = get_default_settings configDir readB parseB := by
  refine ⟨?_, ?_, ?_⟩ <;>
    simp [get_default_settings, read_settings, hfp, hA, hB, hPB]

/-- C8 witness: a concrete absent file and a concrete unparsable file. -/
theorem c8_settings_failures_indistinguishable_witness :
    get_default_settings (some "cfg") readFileAbsent parseFail
      = Response.err "No default settings" ∧
    get_default_settings (some "cfg") readFileGarbage parseFail
      = Response.err "No default settings" ∧
    get_default_settings (some "cfg") readFileAbsent parseFail
      = get_default_settings (some "cfg") readFileGarbage parseFail :=
  c8_settings_failures_indistinguishable (some "cfg") "cfg/default.json"
    readFileAbsent readFileGarbage parseFail parseFail
    "not json" "file not found" "expected object" rfl rfl rfl rfl

/-- C9 counterexample: a capability-fetch failure in `get_printer` escapes as
an internal server error (`Except.error`), not as a `{code:1, msg}`
envelope. -/
theorem c9_capability_fetch_escapes_envelope_cx :
    get_printer (.ok [{ name := "P" }]) fetchBoom "P" = Except.error "driver query failed" ∧
    (get_printer (.ok [{ name := "P" }]) fetchBoom "P").isOk = false := ⟨rfl, rfl⟩

/-- C9 (amended): every error produced by `print_file` is translated by the
`print` handler into the `{code:1, msg:"Failed to print: …"}` envelope and
success into `{code:0, data:"ok"}`; but in `get_printer` a capability-fetch
failure propagates as an internal server error rather than an envelope. -/
theorem c9_print_errors_enveloped :
    (∀ (env : PrintEnv) (payload : PrintPayload) (e : String),
      (print_file env payload).1 = .error e →
      print env payload = Response.err ("Failed to print: " ++ e)) ∧
    (∀ (env : PrintEnv) (payload : PrintPayload),
      (print_file env payload).1 = .ok () →
      print env payload = Response.ok "ok") ∧
    (∀ (enum : Except String (List PrinterDevice))
      (fetch : PrinterDevice → Except String PrintCapabilities)
      (nm : String) (printer : PrinterDevice) (e : String),
      ((enum.toOption).getD []).find? (fun p => p.name == nm) = some printer →
      fetch printer = .error e →
      get_printer enum fetch nm = Except.error e) := by
  refine ⟨?_, ?_, ?_⟩
  · intro env payload e h
    simp [print, h]
  · intro env payload h
    simp [print, h]
  · intro enum fetch nm printer e hfind hfetch
    simp [get_printer, hfind, hfetch]

/-- C9 witness: a concrete enveloped print failure and a concrete escaping
capability-fetch failure. -/
theorem c9_print_errors_enveloped_witness :
    print (baseEnv (.error "boom") fetchPlain) payloadPlain
      = Response.err "Failed to print: boom" ∧
    get_printer (.ok [{ name := "Q" }]) fetchBoom "Q" = Except.error "driver query failed" :=
  ⟨c9_print_errors_enveloped.1 (baseEnv (.error "boom") fetchPlain) payloadPlain "boom" rfl,
   c9_print_errors_enveloped.2.2 (.ok [{ name := "Q" }]) fetchBoom "Q" { name := "Q" }
     "driver query failed" rfl rfl⟩

/-- C10 (confirmed): a capability set with no exposable entry is reported as
an absent field, never as an empty list: only-driver-private orientations
make the orientations field absent, no page-media sizes make the page-sizes
field absent, and neither field of a successful `get_printer` response is
ever an empty list. -/
theorem c10_empty_capability_sets_absent :
    (∀ cap : PrintCapabilities,
      get_orientations cap ≠ some [] ∧
      get_page_sizes cap ≠ some [] ∧
      ((∀ o ∈ cap.pageOrientations, o.asPredefinedName = none) → get_orientations cap = none) ∧
      (cap.pageMediaSizes = [] → get_page_sizes cap = none)) ∧
    (∀ (enum : Except String (List PrinterDevice))
       (fetch : PrinterDevice → Except String PrintCapabilities) (nm : String)
       (r : PrinterCapability),
      get_printer enum fetch nm = .ok (Response.ok r) →
      r.orientations ≠ some [] ∧ r.page_sizes ≠ some []) := by
  constructor
  · intro cap
    refine ⟨get_orientations_ne_some_nil cap, get_page_sizes_ne_some_nil cap, ?_, ?_⟩
    · intro hall
      have hnil : cap.pageOrientations.filterMap
          (fun o => o.asPredefinedName.map orientationFromPredefined) = [] := by
        rw [List.filterMap_eq_nil_iff]
        intro o ho
        rw [hall o ho]
        rfl
      simp [get_orientations, hnil]
    · intro hnil
      simp [get_page_sizes, hnil]
  · intro enum fetch nm r hr
    cases hfind : ((enum.toOption).getD []).find? (fun p => p.name == nm) with
    | none =>
      simp [get_printer, hfind, Response.err, Response.ok] at hr
    | some printer =>
      cases hf : fetch printer with
      | error e => simp [get_printer, hfind, hf] at hr
      | ok cap =>
        simp [get_printer, hfind, hf, Response.ok] at hr
        cases hr
        exact ⟨get_orientations_ne_some_nil cap, get_page_sizes_ne_some_nil cap⟩

/-- C10 witness: a device with only a driver-private orientation and no page
sizes reports both fields absent. -/
theorem c10_empty_capability_sets_absent_witness :
    get_orientations
        { maxCopies := none
          pageOrientations := [{ asPredefinedName := none, privateData := 5 }]
          pageMediaSizes := [] } = none ∧
    get_page_sizes
        { maxCopies := none
          pageOrientations := [{ asPredefinedName := none, privateData := 5 }]
          pageMediaSizes := [] } = none :=
  ⟨((c10_empty_capability_sets_absent.1 _).2.2.1) (by decide),
   ((c10_empty_capability_sets_absent.1 _).2.2.2) rfl⟩

end DirectPrinting
